import Mathlib

/-!
Shallow embedding of the per-stream request-reassembly engine of
src/mod_h2/h2_stream.c.

The stream code itself (h2_stream.c) is embedded from the source.  The
collaborating primitives it calls — the fixed-capacity buffer (h2_bucket),
the delivery queue (h2_bucket_queue) and the request serializer (h2_frame) —
are not part of the excerpt, so they are modelled from the specification's
interface contracts (spec sections 4.1, 4.2 and 6).

Bytes are modelled as lists of characters.  A C call that passes a NULL
h2_bucket pointer to one of the bucket/serializer primitives has no defined
meaning (the primitives dereference their argument), so the embedding
returns `none` for such an execution; `some (st, sys)` is a normally
returning call with status `st` and post-state `sys`.
-/

namespace H2

/-- Stream lifecycle states (spec section 3 / 4.3): IDLE is the initial
state, CLOSED the terminal one. -/
inductive H2StreamState
  | idle
  | closedInput
  | closedOutput
  | closed
  deriving DecidableEq, Repr

/-- APR-style status codes as used by the excerpt: APR_SUCCESS,
APR_EGENERAL (protocol violation), APR_ENOMEM, APR_ENAMETOOLONG (the
serializer's TooLarge), and an opaque queue failure. -/
inductive Apr
  | success
  | egeneral
  | enomem
  | enametoolong
  | queueErr
  deriving DecidableEq, Repr

/-- The fixed-capacity Segment (h2_bucket): raw storage with a used length
(`data.length`) and a capacity `dataSize`. -/
structure H2Bucket where
  data : List Char
  dataSize : Nat
  deriving DecidableEq, Repr

/-- Modelled from the spec: h2_bucket_alloc returns a fresh empty Segment
of the requested capacity.  Allocation failure (OutOfMemory) is not
modelled; none of the properties below depend on it. -/
def h2_bucket_alloc (size : Nat) : H2Bucket :=
  { data := [], dataSize := size }

/-- Modelled from the spec (4.1): has_free(n) is true iff
capacity - used_length >= n. -/
def h2_bucket_has_free (b : H2Bucket) (n : Nat) : Bool :=
  n ≤ b.dataSize - b.data.length

/-- Modelled from the spec (4.1): append writes as many leading bytes as
fit and returns the count written; it never errors and never overflows
the capacity. -/
def h2_bucket_append (b : H2Bucket) (s : List Char) : Nat × H2Bucket :=
  let written := min (b.dataSize - b.data.length) s.length
  (written, { b with data := b.data ++ s.take written })

/-- Modelled from the spec (4.1): concat_text is a convenience append of a
literal string; the caller must ensure it fits (it is used only for the
2-byte header terminator, after a has_free check). -/
def h2_bucket_cat (b : H2Bucket) (s : List Char) : H2Bucket :=
  (h2_bucket_append b s).2

/-- An item delivered to the queue: either a data Segment's bytes tagged
with a stream id, or an end-of-stream marker tagged with a stream id. -/
inductive QueueItem
  | data (streamId : Nat) (payload : List Char)
  | eos (streamId : Nat)
  deriving DecidableEq, Repr

/-- Modelled from the spec: the delivery queue is an ordered sink of
stream-tagged items.  `ok` models the opaque queue failure mode (spec
section 7, QueueFailure): when false, append operations fail and leave the
queue unchanged. -/
structure BucketQueue where
  items : List QueueItem
  ok : Bool
  deriving DecidableEq, Repr

/-- Modelled from the spec: append a Segment tagged with a stream id. -/
def h2_bucket_queue_append (q : BucketQueue) (b : H2Bucket) (streamId : Nat) :
    Apr × BucketQueue :=
  if q.ok then (Apr.success, { q with items := q.items ++ [QueueItem.data streamId b.data] })
  else (Apr.queueErr, q)

/-- Modelled from the spec: append an end-of-stream marker tagged with a
stream id. -/
def h2_bucket_queue_append_eos (q : BucketQueue) (streamId : Nat) :
    Apr × BucketQueue :=
  if q.ok then (Apr.success, { q with items := q.items ++ [QueueItem.eos streamId] })
  else (Apr.queueErr, q)

/-- The blank-line / line terminator written by end_headers. -/
def crlf : List Char := ['\r', '\n']

/-- Modelled from the spec (4.2, 6): the request-line equivalent is
`METHOD SP PATH CRLF`. -/
def reqStartLine (m p : List Char) : List Char :=
  m ++ [' '] ++ p ++ crlf

/-- Modelled from the spec (4.2, 6): a wire-format header line is
`Name: Value CRLF`. -/
def headerLine (name value : List Char) : List Char :=
  name ++ [':', ' '] ++ value ++ crlf

/-- Modelled from the spec (4.2): write_request_start writes the
request-line, failing with TooLarge (ENAMETOOLONG) and writing nothing
when the Segment lacks room. -/
def h2_frame_req_add_start (b : H2Bucket) (m p : List Char) : Apr × H2Bucket :=
  let line := reqStartLine m p
  if h2_bucket_has_free b line.length then (Apr.success, (h2_bucket_append b line).2)
  else (Apr.enametoolong, b)

/-- Modelled from the spec (4.2): write_header writes one wire-format
header line, failing with TooLarge (ENAMETOOLONG) and writing nothing
when it does not fit the remaining capacity, even if the Segment is
currently empty. -/
def h2_frame_req_add_header (b : H2Bucket) (name value : List Char) :
    Apr × H2Bucket :=
  let line := headerLine name value
  if h2_bucket_has_free b line.length then (Apr.success, (h2_bucket_append b line).2)
  else (Apr.enametoolong, b)

/-- The h2_stream record: id, lifecycle state, the four pseudo-header
fields, end-of-headers and aborted flags, the optional work Segment, and
whether a state-change observer callback is registered. -/
structure H2Stream where
  id : Nat
  state : H2StreamState
  method : Option (List Char)
  scheme : Option (List Char)
  path : Option (List Char)
  authority : Option (List Char)
  eoh : Bool
  aborted : Bool
  work : Option H2Bucket
  hasStateCb : Bool
  deriving DecidableEq, Repr

/-- A stream together with its observable environment: the session's
delivery queue and the trace of observer-callback invocations, each
recorded as (old state, new state). -/
structure StreamSys where
  stream : H2Stream
  queue : BucketQueue
  cbEvents : List (H2StreamState × H2StreamState)
  deriving DecidableEq, Repr

/-- set_state (h2_stream.c:39): updates the state and invokes the
registered observer callback exactly when the value actually changes. -/
def set_state (sys : StreamSys) (st : H2StreamState) : StreamSys :=
  if sys.stream.state = st then sys
  else
    { sys with
      stream := { sys.stream with state := st },
      cbEvents :=
        if sys.stream.hasStateCb then sys.cbEvents ++ [(sys.stream.state, st)]
        else sys.cbEvents }

/-- h2_stream_create (h2_stream.c:51): a zero-initialized stream with the
given id, in state IDLE, with no work Segment and no observer. -/
def h2_stream_create (streamId : Nat) (q : BucketQueue) : StreamSys :=
  { stream :=
      { id := streamId, state := H2StreamState.idle, method := none,
        scheme := none, path := none, authority := none, eoh := false,
        aborted := false, work := none, hasStateCb := false },
    queue := q,
    cbEvents := [] }

/-- h2_stream_set_state_change_cb (h2_stream.c:85): registers the
observer. -/
def h2_stream_set_state_change_cb (sys : StreamSys) : StreamSys :=
  { sys with stream := { sys.stream with hasStateCb := true } }

/-- h2_stream_abort (h2_stream.c:78): sets the aborted flag
monotonically. -/
def h2_stream_abort (sys : StreamSys) : StreamSys :=
  if sys.stream.aborted then sys
  else { sys with stream := { sys.stream with aborted := true } }

/-- h2_stream_check_work (h2_stream.c:93): lazily allocates the 16 KiB
work Segment when absent.  Allocation is modelled as always succeeding
(see h2_bucket_alloc). -/
def h2_stream_check_work (sys : StreamSys) : Apr × StreamSys :=
  match sys.stream.work with
  | none =>
      (Apr.success,
       { sys with stream := { sys.stream with work := some (h2_bucket_alloc (16 * 1024)) } })
  | some _ => (Apr.success, sys)

/-- h2_stream_push (h2_stream.c:104): appends the work Segment to the
queue tagged with the stream id; on success the work reference is cleared,
on failure it is left unchanged.  Calling it with no work Segment passes a
NULL bucket to the queue primitive, which is undefined (`none`). -/
def h2_stream_push (sys : StreamSys) : Option (Apr × StreamSys) :=
  match sys.stream.work with
  | none => none
  | some b =>
      let r := h2_bucket_queue_append sys.queue b sys.stream.id
      if r.1 = Apr.success then
        some (Apr.success,
              { sys with stream := { sys.stream with work := none }, queue := r.2 })
      else some (r.1, { sys with queue := r.2 })

/-- h2_stream_end_headers (h2_stream.c:119): ensures work exists, sets the
eoh flag, pushes first when the Segment lacks room for the 2-byte
terminator, then writes the terminator and pushes.  Note that after a
successful room-making push the work reference is NULL and the terminator
write dereferences it (`none`). -/
def h2_stream_end_headers (sys : StreamSys) : Option (Apr × StreamSys) :=
  let c := h2_stream_check_work sys
  if c.1 ≠ Apr.success then some (c.1, c.2)
  else
    let sys1 := { c.2 with stream := { c.2.stream with eoh := true } }
    match sys1.stream.work with
    | none => none
    | some b =>
        let step : Option (Apr × StreamSys) :=
          if h2_bucket_has_free b 2 then some (Apr.success, sys1)
          else h2_stream_push sys1
        match step with
        | none => none
        | some (st, sys2) =>
            if st = Apr.success then
              match sys2.stream.work with
              | none => none
              | some b2 =>
                  let sys3 :=
                    { sys2 with stream := { sys2.stream with work := some (h2_bucket_cat b2 crlf) } }
                  h2_stream_push sys3
            else some (st, sys2)

/-- The state transition performed by close_input's switch
(h2_stream.c:144): already-closed-input states are left alone,
CLOSED_OUTPUT becomes CLOSED, everything else becomes CLOSED_INPUT. -/
def close_input_table (s : H2StreamState) : H2StreamState :=
  match s with
  | H2StreamState.closedInput => H2StreamState.closedInput
  | H2StreamState.closed => H2StreamState.closed
  | H2StreamState.closedOutput => H2StreamState.closed
  | H2StreamState.idle => H2StreamState.closedInput

/-- h2_stream_close_input (h2_stream.c:141): performs the state
transition, pushes any existing work Segment, and — whenever the status is
still SUCCESS — appends an end-of-stream marker to the queue. -/
def h2_stream_close_input (sys : StreamSys) : Option (Apr × StreamSys) :=
  let sys1 :=
    match sys.stream.state with
    | H2StreamState.closedInput => sys
    | H2StreamState.closed => sys
    | H2StreamState.closedOutput => set_state sys H2StreamState.closed
    | H2StreamState.idle => set_state sys H2StreamState.closedInput
  let step : Option (Apr × StreamSys) :=
    match sys1.stream.work with
    | some _ => h2_stream_push sys1
    | none => some (Apr.success, sys1)
  match step with
  | none => none
  | some (st, sys2) =>
      if st = Apr.success then
        let r := h2_bucket_queue_append_eos sys2.queue sys2.stream.id
        some (r.1, { sys2 with queue := r.2 })
      else some (st, sys2)

/-- The pseudo-header key ":method" (H2_HEADER_METHOD). -/
def methodKey : List Char := [':', 'm', 'e', 't', 'h', 'o', 'd']

/-- The pseudo-header key ":scheme" (H2_HEADER_SCHEME). -/
def schemeKey : List Char := [':', 's', 'c', 'h', 'e', 'm', 'e']

/-- The pseudo-header key ":path" (H2_HEADER_PATH). -/
def pathKey : List Char := [':', 'p', 'a', 't', 'h']

/-- The pseudo-header key ":authority" (H2_HEADER_AUTH). -/
def authKey : List Char := [':', 'a', 'u', 't', 'h', 'o', 'r', 'i', 't', 'y']

/-- The synthesized "Host" header name. -/
def hostName : List Char := ['H', 'o', 's', 't']

/-- The request-start block of h2_stream_add_header (h2_stream.c:246):
writes the request line into the freshly ensured work Segment and, when an
authority is stored, a synthesized Host header. -/
def addReqStart (sys : StreamSys) (m p : List Char) : Option (Apr × StreamSys) :=
  match sys.stream.work with
  | none => none
  | some b =>
      let r := h2_frame_req_add_start b m p
      let sys1 := { sys with stream := { sys.stream with work := some r.2 } }
      if r.1 = Apr.success then
        match sys1.stream.authority with
        | some auth =>
            let r2 := h2_frame_req_add_header r.2 hostName auth
            some (r2.1, { sys1 with stream := { sys1.stream with work := some r2.2 } })
        | none => some (Apr.success, sys1)
      else some (r.1, sys1)

/-- The common header-write block of h2_stream_add_header
(h2_stream.c:256): attempt the write; on ENAMETOOLONG with a non-empty
Segment, push it and retry once.  After a successful push the work
reference is NULL and the retry dereferences it (`none`). -/
def addHeaderWrite (sys : StreamSys) (name value : List Char) :
    Option (Apr × StreamSys) :=
  match sys.stream.work with
  | none => none
  | some b =>
      let r := h2_frame_req_add_header b name value
      if r.1 = Apr.enametoolong ∧ 0 < b.data.length then
        match h2_stream_push sys with
        | none => none
        | some (st, sys2) =>
            if st = Apr.success then
              match sys2.stream.work with
              | none => none
              | some b2 =>
                  let r2 := h2_frame_req_add_header b2 name value
                  some (r2.1, { sys2 with stream := { sys2.stream with work := some r2.2 } })
            else some (st, sys2)
      else some (r.1, { sys with stream := { sys.stream with work := some r.2 } })

/-- h2_stream_add_header (h2_stream.c:170): empty names are ignored;
pseudo-headers are only legal before work exists and must carry a value;
the four well-known pseudo-headers are stored; the first regular header
requires method and path and triggers the request-start write; every
regular header is then serialized into the work Segment with a
push-and-retry on overflow. -/
def h2_stream_add_header (sys : StreamSys) (name value : List Char) :
    Option (Apr × StreamSys) :=
  if name.length = 0 then some (Apr.success, sys)
  else if name.head? = some ':' then
    match sys.stream.work with
    | some _ => some (Apr.egeneral, sys)
    | none =>
        if value.length = 0 then some (Apr.egeneral, sys)
        else if name = methodKey then
          some (Apr.success, { sys with stream := { sys.stream with method := some value } })
        else if name = schemeKey then
          some (Apr.success, { sys with stream := { sys.stream with scheme := some value } })
        else if name = pathKey then
          some (Apr.success, { sys with stream := { sys.stream with path := some value } })
        else if name = authKey then
          some (Apr.success, { sys with stream := { sys.stream with authority := some value } })
        else some (Apr.success, sys)
  else
    let start : Option (Apr × StreamSys) :=
      match sys.stream.work with
      | some _ => some (Apr.success, sys)
      | none =>
          match sys.stream.method, sys.stream.path with
          | none, _ => some (Apr.egeneral, sys)
          | some _, none => some (Apr.egeneral, sys)
          | some m, some p =>
              let c := h2_stream_check_work sys
              addReqStart c.2 m p
    match start with
    | none => none
    | some (st, sys1) =>
        if st = Apr.success then addHeaderWrite sys1 name value
        else some (st, sys1)

/-- The while loop of h2_stream_add_data (h2_stream.c:283): append what
fits; when not all bytes were written, push and continue with the
remainder.  After a successful push the work reference is NULL and the
next append dereferences it (`none`).  The fuel argument only makes the
recursion structural; it is never exhausted when starting from
`data.length + 1`, because the loop only recurses after a successful push,
whose following iteration returns immediately. -/
def addDataLoop : Nat → StreamSys → List Char → Option (Apr × StreamSys)
  | 0, _, _ => none
  | n + 1, sys, data =>
    if data.length = 0 then some (Apr.success, sys)
    else
      match sys.stream.work with
      | none => none
      | some b =>
          let r := h2_bucket_append b data
          let sys1 := { sys with stream := { sys.stream with work := some r.2 } }
          if r.1 < data.length then
            match h2_stream_push sys1 with
            | none => none
            | some (st, sys2) =>
                if st = Apr.success then addDataLoop n sys2 (data.drop r.1)
                else some (st, sys2)
          else some (Apr.success, sys1)

/-- h2_stream_add_data (h2_stream.c:275): ensure the work Segment exists
and run the append loop. -/
def h2_stream_add_data (sys : StreamSys) (data : List Char) :
    Option (Apr × StreamSys) :=
  let c := h2_stream_check_work sys
  addDataLoop (data.length + 1) c.2 data

end H2

namespace H2

/-! ### Test-harness definitions and helper lemmas -/

/-- A fresh, accepting delivery queue. -/
def initQueue : BucketQueue := { items := [], ok := true }

/-- A freshly created stream with id 1 over an accepting queue. -/
def initSys : StreamSys := h2_stream_create 1 initQueue

/-- Run close_input and keep the post-state (close_input always returns
normally, see close_input_isSome). -/
def stepClose (sys : StreamSys) : StreamSys :=
  match h2_stream_close_input sys with
  | some r => r.2
  | none => sys

/-- Run add_header and keep the post-state when the call returns. -/
def stepHdr (sys : StreamSys) (name value : List Char) : StreamSys :=
  match h2_stream_add_header sys name value with
  | some r => r.2
  | none => sys

/-- Run add_data and keep the post-state when the call returns. -/
def stepData (sys : StreamSys) (data : List Char) : StreamSys :=
  match h2_stream_add_data sys data with
  | some r => r.2
  | none => sys

/-- The queue item a close_input call produces for a pending work
Segment: one data item when work exists, nothing otherwise. -/
def workItem (sys : StreamSys) : List QueueItem :=
  match sys.stream.work with
  | some b => [QueueItem.data sys.stream.id b.data]
  | none => []

lemma close_input_isSome (sys : StreamSys) :
    (h2_stream_close_input sys).isSome = true := by
  rcases sys with ⟨⟨i, state, m, sc, p, au, eoh, ab, work, hcb⟩, ⟨items, ok⟩, events⟩
  cases state <;> cases work <;> cases ok <;>
    simp [h2_stream_close_input, set_state, h2_stream_push,
      h2_bucket_queue_append, h2_bucket_queue_append_eos]

end H2

namespace H2

/-- A fresh stream with a state-change observer registered. -/
def sysCb : StreamSys := h2_stream_set_state_change_cb initSys

/-- The post-state of closing input once on the observed fresh stream. -/
def sysCbClosed : StreamSys := stepClose sysCb

/-- C7: close_input follows the transition table exactly — CLOSED_INPUT
and CLOSED are left unchanged, CLOSED_OUTPUT becomes CLOSED, any other
state becomes CLOSED_INPUT (close_input_table) — and with an observer
registered, the callback trace is extended by exactly one (old, new)
record when the state value actually changes and is unchanged when it
does not. -/
theorem close_input_state_table_observer (sys : StreamSys)
    (hcb : sys.stream.hasStateCb = true) :
    (h2_stream_close_input sys).isSome = true ∧
    (stepClose sys).stream.state = close_input_table sys.stream.state ∧
    (close_input_table sys.stream.state ≠ sys.stream.state →
      (stepClose sys).cbEvents =
        sys.cbEvents ++ [(sys.stream.state, close_input_table sys.stream.state)]) ∧
    (close_input_table sys.stream.state = sys.stream.state →
      (stepClose sys).cbEvents = sys.cbEvents) := by
  refine ⟨close_input_isSome sys, ?_⟩
  rcases sys with ⟨⟨i, state, m, sc, p, au, eoh, ab, work, hcb'⟩, ⟨items, ok⟩, events⟩
  cases hcb
  cases state <;> cases work <;> cases ok <;>
    simp [stepClose, h2_stream_close_input, set_state, h2_stream_push,
      h2_bucket_queue_append, h2_bucket_queue_append_eos, close_input_table]

/-- Witness for C7 at a concrete observed stream: one call from IDLE
moves to CLOSED_INPUT and fires the observer once. -/
theorem close_input_state_table_observer_inst :
    (h2_stream_close_input sysCb).isSome = true ∧
    (stepClose sysCb).stream.state = close_input_table sysCb.stream.state ∧
    (close_input_table sysCb.stream.state ≠ sysCb.stream.state →
      (stepClose sysCb).cbEvents =
        sysCb.cbEvents ++ [(sysCb.stream.state, close_input_table sysCb.stream.state)]) ∧
    (close_input_table sysCb.stream.state = sysCb.stream.state →
      (stepClose sysCb).cbEvents = sysCb.cbEvents) :=
  close_input_state_table_observer sysCb (by rfl)

end H2

namespace H2

/-- Iterate close_input n times with no intervening operations. -/
def iterClose : Nat → StreamSys → StreamSys
  | 0, sys => sys
  | n + 1, sys => iterClose n (stepClose sys)

lemma close_input_table_idem (s : H2StreamState) :
    close_input_table (close_input_table s) = close_input_table s := by
  cases s <;> rfl

lemma stepClose_ok (sys : StreamSys) (hq : sys.queue.ok = true) :
    (stepClose sys).queue.items =
      sys.queue.items ++ workItem sys ++ [QueueItem.eos sys.stream.id] ∧
    (stepClose sys).stream.work = none ∧
    (stepClose sys).queue.ok = true ∧
    (stepClose sys).stream.id = sys.stream.id ∧
    (stepClose sys).stream.state = close_input_table sys.stream.state ∧
    (stepClose sys).stream.hasStateCb = sys.stream.hasStateCb ∧
    (stepClose sys).cbEvents =
      sys.cbEvents ++
        (if close_input_table sys.stream.state ≠ sys.stream.state ∧
            sys.stream.hasStateCb = true then
          [(sys.stream.state, close_input_table sys.stream.state)]
        else []) := by
  rcases sys with ⟨⟨i, state, m, sc, p, au, eoh, ab, work, hcb⟩, ⟨items, ok⟩, events⟩
  cases hq
  cases state <;> cases work <;> cases hcb <;>
    simp [stepClose, h2_stream_close_input, set_state, h2_stream_push,
      h2_bucket_queue_append, h2_bucket_queue_append_eos, close_input_table,
      workItem]

lemma stepClose_fail (sys : StreamSys) (hq : sys.queue.ok = false) :
    (stepClose sys).queue.items = sys.queue.items := by
  rcases sys with ⟨⟨i, state, m, sc, p, au, eoh, ab, work, hcb⟩, ⟨items, ok⟩, events⟩
  cases hq
  cases state <;> cases work <;> cases hcb <;>
    simp [stepClose, h2_stream_close_input, set_state, h2_stream_push,
      h2_bucket_queue_append, h2_bucket_queue_append_eos]

lemma iterClose_stable (n : Nat) (sys : StreamSys)
    (hw : sys.stream.work = none) (hq : sys.queue.ok = true)
    (hs : close_input_table sys.stream.state = sys.stream.state) :
    (iterClose n sys).queue.items =
      sys.queue.items ++ List.replicate n (QueueItem.eos sys.stream.id) ∧
    (iterClose n sys).stream.state = sys.stream.state ∧
    (iterClose n sys).cbEvents = sys.cbEvents := by
  induction n generalizing sys with
  | zero => simp [iterClose]
  | succ k ih =>
      obtain ⟨h1, h2, h3, h4, h5, h6, h7⟩ := stepClose_ok sys hq
      have hwi : workItem sys = [] := by simp [workItem, hw]
      have hstep := ih (stepClose sys) h2 h3 (by rw [h5, hs, hs])
      refine ⟨?_, ?_, ?_⟩
      · rw [iterClose, hstep.1, h1, h4, hwi]
        simp [List.replicate_succ]
      · rw [iterClose, hstep.2.1, h5, hs]
      · rw [iterClose, hstep.2.2, h7]
        simp [hs]

end H2

namespace H2

/-- C1, counterexample: two close_input calls on a fresh stream put two
end-of-stream markers in the delivery queue, not exactly one. -/
theorem close_input_twice_duplicates_eos :
    (iterClose 2 initSys).queue.items = [QueueItem.eos 1, QueueItem.eos 1] := by
  decide

/-- C1, amended: calling close_input N >= 1 times (with no intervening
operations, the queue accepting, and no work Segment pending) performs at
most one state transition — the state after every call equals the value
the transition table assigns to the initial state, and the observer trace
grows by at most one record — but appends one end-of-stream marker to the
queue per call, N markers in total, rather than exactly one. -/
theorem close_input_iterated_marker_per_call (sys : StreamSys) (n : Nat)
    (hw : sys.stream.work = none) (hq : sys.queue.ok = true) (hn : 1 ≤ n) :
    (iterClose n sys).queue.items =
      sys.queue.items ++ List.replicate n (QueueItem.eos sys.stream.id) ∧
    (iterClose n sys).stream.state = close_input_table sys.stream.state ∧
    (iterClose n sys).cbEvents.length ≤ sys.cbEvents.length + 1 := by
  obtain ⟨k, rfl⟩ : ∃ k, n = k + 1 := ⟨n - 1, by omega⟩
  obtain ⟨h1, h2, h3, h4, h5, h6, h7⟩ := stepClose_ok sys hq
  have hwi : workItem sys = [] := by simp [workItem, hw]
  have hstep := iterClose_stable k (stepClose sys) h2 h3
    (by rw [h5, close_input_table_idem])
  refine ⟨?_, ?_, ?_⟩
  · rw [iterClose, hstep.1, h1, h4, hwi]
    simp [List.replicate_succ]
  · rw [iterClose, hstep.2.1, h5]
  · rw [iterClose, hstep.2.2, h7]
    split <;> simp

/-- Witness for C1's amended theorem at a fresh stream and N = 2. -/
theorem close_input_iterated_marker_per_call_inst :
    (iterClose 2 initSys).queue.items =
      initSys.queue.items ++ List.replicate 2 (QueueItem.eos initSys.stream.id) ∧
    (iterClose 2 initSys).stream.state = close_input_table initSys.stream.state ∧
    (iterClose 2 initSys).cbEvents.length ≤ initSys.cbEvents.length + 1 :=
  close_input_iterated_marker_per_call initSys 2 (by rfl) (by rfl) (by decide)

end H2

namespace H2

/-- A fresh stream that holds a one-byte work Segment. -/
def pendingSys : StreamSys :=
  { initSys with
    stream := { initSys.stream with work := some { data := ['x'], dataSize := 16 * 1024 } } }

/-- The same pending stream over a failing delivery queue. -/
def pendingSysBadQ : StreamSys :=
  { pendingSys with queue := { items := [], ok := false } }

/-- C8, counterexample: the operation sequence close_input, add_data "x",
close_input delivers a data Segment for the stream after the stream's
first end-of-stream marker, so over arbitrary operation sequences data can
follow the end-of-stream marker in the queue. -/
theorem queue_data_after_eos :
    (stepClose (stepData (stepClose initSys) ['x'])).queue.items =
      [QueueItem.eos 1, QueueItem.data 1 ['x'], QueueItem.eos 1] := by
  decide

/-- C8, amended: within each single close_input call the ordering claim
holds — any existing work Segment is appended to the queue before the
end-of-stream marker, and the marker is appended only if that push
succeeded (or no Segment existed); when the queue refuses the push nothing
is appended at all.  Operations performed after a close_input can still
append further data for the stream behind the marker. -/
theorem close_input_work_before_eos (sys : StreamSys) :
    (sys.queue.ok = true →
      (stepClose sys).queue.items =
        sys.queue.items ++ workItem sys ++ [QueueItem.eos sys.stream.id]) ∧
    (sys.queue.ok = false →
      (stepClose sys).queue.items = sys.queue.items) := by
  constructor
  · intro hq
    exact (stepClose_ok sys hq).1
  · intro hq
    exact stepClose_fail sys hq

/-- Witness for C8's amended theorem: a pending Segment is delivered just
before the marker on an accepting queue, and nothing is delivered on a
failing queue. -/
theorem close_input_work_before_eos_inst :
    (stepClose pendingSys).queue.items =
      pendingSys.queue.items ++ workItem pendingSys ++
        [QueueItem.eos pendingSys.stream.id] ∧
    (stepClose pendingSysBadQ).queue.items = pendingSysBadQ.queue.items :=
  ⟨(close_input_work_before_eos pendingSys).1 (by rfl),
   (close_input_work_before_eos pendingSysBadQ).2 (by rfl)⟩

end H2

namespace H2

/-- C10: push moves the work Segment's bytes to the queue tagged with the
stream id; exactly on queue-append success the work reference is cleared
to absent, and on queue failure the stream (work reference, Segment
contents and all) is left completely unchanged. -/
theorem push_ownership_transfer (sys : StreamSys) (b : H2Bucket)
    (hw : sys.stream.work = some b) :
    (sys.queue.ok = true →
      h2_stream_push sys =
        some (Apr.success,
          { sys with
            stream := { sys.stream with work := none },
            queue := { sys.queue with
              items := sys.queue.items ++ [QueueItem.data sys.stream.id b.data] } })) ∧
    (sys.queue.ok = false → h2_stream_push sys = some (Apr.queueErr, sys)) := by
  constructor <;> intro hq <;>
    simp [h2_stream_push, hw, h2_bucket_queue_append, hq]

/-- Witness for C10 at a concrete pending Segment, on an accepting and on
a failing queue. -/
theorem push_ownership_transfer_inst :
    (pendingSys.queue.ok = true →
      h2_stream_push pendingSys =
        some (Apr.success,
          { pendingSys with
            stream := { pendingSys.stream with work := none },
            queue := { pendingSys.queue with
              items := pendingSys.queue.items ++
                [QueueItem.data pendingSys.stream.id
                  (H2Bucket.data { data := ['x'], dataSize := 16 * 1024 })] } })) ∧
    (pendingSysBadQ.queue.ok = false →
      h2_stream_push pendingSysBadQ = some (Apr.queueErr, pendingSysBadQ)) :=
  ⟨(push_ownership_transfer pendingSys { data := ['x'], dataSize := 16 * 1024 } (by rfl)).1,
   (push_ownership_transfer pendingSysBadQ { data := ['x'], dataSize := 16 * 1024 } (by rfl)).2⟩

end H2

namespace H2

/-- C5: add_header fails with EGENERAL (ProtocolViolation) and leaves the
stream untouched when a pseudo-header arrives after the work Segment
exists, and when a regular header arrives while work is absent but
:method or :path has not been stored. -/
theorem add_header_protocol_violations (sys : StreamSys) (name value : List Char)
    (hn : name ≠ []) :
    (name.head? = some ':' → sys.stream.work.isSome = true →
      h2_stream_add_header sys name value = some (Apr.egeneral, sys)) ∧
    (name.head? ≠ some ':' → sys.stream.work = none →
      sys.stream.method = none ∨ sys.stream.path = none →
      h2_stream_add_header sys name value = some (Apr.egeneral, sys)) := by
  constructor
  · intro hp hw
    obtain ⟨b, hb⟩ := Option.isSome_iff_exists.mp hw
    simp [h2_stream_add_header, hn, hp, hb]
  · intro hp hw hmp
    rcases hmp with h | h
    · simp [h2_stream_add_header, hn, hp, hw, h]
    · cases hm : sys.stream.method <;>
        simp [h2_stream_add_header, hn, hp, hw, h, hm]

/-- Witness for C5: a pseudo-header after request start on a stream with
a work Segment, and a regular header on a fresh stream with no :method. -/
theorem add_header_protocol_violations_inst :
    h2_stream_add_header pendingSys [':', 'a'] ['v'] =
      some (Apr.egeneral, pendingSys) ∧
    h2_stream_add_header initSys ['a'] ['v'] = some (Apr.egeneral, initSys) :=
  ⟨(add_header_protocol_violations pendingSys [':', 'a'] ['v'] (by decide)).1
      (by rfl) (by rfl),
   (add_header_protocol_violations initSys ['a'] ['v'] (by decide)).2
      (by decide) (by rfl) (Or.inl (by rfl))⟩

/-- C6: with work absent, a pseudo-header with an empty value fails with
EGENERAL; an unknown pseudo-header (name starting with the sentinel but
none of :method, :scheme, :path, :authority) succeeds and leaves the
stream — in particular all four stored fields — unchanged; an empty
header name is a successful no-op. -/
theorem add_header_pseudo_edge_cases (sys : StreamSys) (name value : List Char)
    (hw : sys.stream.work = none) :
    (name.head? = some ':' → value = [] →
      h2_stream_add_header sys name value = some (Apr.egeneral, sys)) ∧
    (name.head? = some ':' → value ≠ [] →
      name ≠ methodKey → name ≠ schemeKey → name ≠ pathKey → name ≠ authKey →
      h2_stream_add_header sys name value = some (Apr.success, sys)) ∧
    (name = [] → h2_stream_add_header sys name value = some (Apr.success, sys)) := by
  refine ⟨?_, ?_, ?_⟩
  · intro hp hv
    have hn : name ≠ [] := by
      intro h
      rw [h] at hp
      simp at hp
    simp [h2_stream_add_header, hn, hp, hw, hv]
  · intro hp hv h1 h2 h3 h4
    have hn : name ≠ [] := by
      intro h
      rw [h] at hp
      simp at hp
    simp [h2_stream_add_header, hn, hp, hw, hv, h1, h2, h3, h4]
  · intro h
    simp [h2_stream_add_header, h]

/-- Witness for C6: empty-valued pseudo-header, unknown pseudo-header and
empty header name on a fresh stream. -/
theorem add_header_pseudo_edge_cases_inst :
    h2_stream_add_header initSys [':', 'a'] [] = some (Apr.egeneral, initSys) ∧
    h2_stream_add_header initSys [':', 'z'] ['v'] = some (Apr.success, initSys) ∧
    h2_stream_add_header initSys [] ['v'] = some (Apr.success, initSys) :=
  ⟨(add_header_pseudo_edge_cases initSys [':', 'a'] [] (by rfl)).1 (by rfl) (by rfl),
   (add_header_pseudo_edge_cases initSys [':', 'z'] ['v'] (by rfl)).2.1
      (by rfl) (by decide) (by decide) (by decide) (by decide) (by decide),
   (add_header_pseudo_edge_cases initSys [] ['v'] (by rfl)).2.2 (by rfl)⟩

end H2

namespace H2

/-- C9, counterexample: storing :method twice keeps the second
occurrence's value, not the first occurrence's. -/
theorem dup_method_first_occurrence_loses :
    (stepHdr (stepHdr initSys methodKey ['G', 'E', 'T']) methodKey
        ['P', 'O', 'S', 'T']).stream.method = some ['P', 'O', 'S', 'T'] ∧
    (some ['P', 'O', 'S', 'T'] : Option (List Char)) ≠ some ['G', 'E', 'T'] := by
  decide

/-- C9, amended: when one of the recognized pseudo-header fields is
received more than once while work is still absent, the last occurrence
wins per field — the stored field value after both calls equals the
second occurrence's value. -/
theorem dup_pseudo_header_last_wins (sys : StreamSys) (v1 v2 : List Char)
    (hw : sys.stream.work = none) (h1 : v1 ≠ []) (h2 : v2 ≠ []) :
    (stepHdr (stepHdr sys methodKey v1) methodKey v2).stream.method = some v2 ∧
    (stepHdr (stepHdr sys schemeKey v1) schemeKey v2).stream.scheme = some v2 ∧
    (stepHdr (stepHdr sys pathKey v1) pathKey v2).stream.path = some v2 ∧
    (stepHdr (stepHdr sys authKey v1) authKey v2).stream.authority = some v2 := by
  refine ⟨?_, ?_, ?_, ?_⟩ <;>
    simp [stepHdr, h2_stream_add_header, methodKey, schemeKey, pathKey,
      authKey, hw, h1, h2]

/-- Witness for C9's amended theorem at concrete duplicate values. -/
theorem dup_pseudo_header_last_wins_inst :
    (stepHdr (stepHdr initSys methodKey ['a']) methodKey ['b']).stream.method =
      some ['b'] ∧
    (stepHdr (stepHdr initSys schemeKey ['a']) schemeKey ['b']).stream.scheme =
      some ['b'] ∧
    (stepHdr (stepHdr initSys pathKey ['a']) pathKey ['b']).stream.path =
      some ['b'] ∧
    (stepHdr (stepHdr initSys authKey ['a']) authKey ['b']).stream.authority =
      some ['b'] :=
  dup_pseudo_header_last_wins initSys ['a'] ['b'] (by rfl) (by decide) (by decide)

end H2

namespace H2

/-- A completely full work Segment would leave no room for the 2-byte
terminator; one byte short of full leaves room for only one. -/
def fullSeg : H2Bucket :=
  { data := List.replicate (16 * 1024 - 1) 'a', dataSize := 16 * 1024 }

/-- A fresh stream whose work Segment has only one free byte. -/
def fullSys : StreamSys :=
  { initSys with stream := { initSys.stream with work := some fullSeg } }

lemma end_headers_no_room_crash (sys : StreamSys) (b : H2Bucket)
    (hw : sys.stream.work = some b) (hq : sys.queue.ok = true)
    (hfree : b.dataSize - b.data.length < 2) :
    h2_stream_end_headers sys = none := by
  have hfb : h2_bucket_has_free b 2 = false := by
    simp only [h2_bucket_has_free, decide_eq_false_iff_not]
    omega
  simp [h2_stream_end_headers, h2_stream_check_work, hw, hfb,
    h2_stream_push, h2_bucket_queue_append, hq]

/-- C4: when the work Segment lacks room for the 2-byte terminator,
end_headers pushes it (clearing the work reference) and then hands the
absent Segment to the terminator write — no new Segment is allocated, and
the claimed terminator-then-push recovery never happens. -/
theorem end_headers_rollover_null_segment :
    h2_stream_end_headers fullSys = none :=
  end_headers_no_room_crash fullSys fullSeg (by rfl) (by rfl)
    (by norm_num [fullSeg])

end H2

namespace H2

/-- A work Segment with four free bytes, as left behind by earlier header
writes. -/
def nearFullSeg : H2Bucket :=
  { data := List.replicate (16 * 1024 - 4) 'a', dataSize := 16 * 1024 }

/-- A stream mid-headers (method and path stored) whose work Segment has
four free bytes. -/
def nearFullSys : StreamSys :=
  { initSys with
    stream := { initSys.stream with
      method := some ['G', 'E', 'T'], path := some ['/'],
      work := some nearFullSeg } }

lemma add_header_rollover_crash (sys : StreamSys) (name value : List Char)
    (b : H2Bucket) (hn : name ≠ []) (hp : name.head? ≠ some ':')
    (hw : sys.stream.work = some b) (hq : sys.queue.ok = true)
    (hne : 0 < b.data.length)
    (hbig : b.dataSize - b.data.length < (headerLine name value).length) :
    h2_stream_add_header sys name value = none := by
  have hfb : h2_bucket_has_free b (headerLine name value).length = false := by
    simp only [h2_bucket_has_free, decide_eq_false_iff_not]
    omega
  simp [h2_stream_add_header, hn, hp, hw, addHeaderWrite,
    h2_frame_req_add_header, hfb, hne, h2_stream_push,
    h2_bucket_queue_append, hq]

/-- C3: a regular header that does not fit the four free bytes of the
non-empty work Segment (but would fit an empty one — its line is 13 bytes,
far below the 16 KiB capacity) triggers the push, after which the single
retry hands the absent work Segment to the serializer — no fresh Segment
receives the header and the claimed successful retry never happens. -/
theorem add_header_rollover_null_segment :
    h2_stream_add_header nearFullSys ['a', 'c', 'c', 'e', 'p', 't']
      ['*', '/', '*'] = none :=
  add_header_rollover_crash nearFullSys ['a', 'c', 'c', 'e', 'p', 't']
    ['*', '/', '*'] nearFullSeg (by decide) (by decide) (by rfl) (by rfl)
    (by norm_num [nearFullSeg])
    (by norm_num [nearFullSeg, headerLine, crlf])

end H2

namespace H2

lemma addDataLoop_none_of_work_none (f : Nat) (sys : StreamSys)
    (d : List Char) (hf : 1 ≤ f) (hd : d ≠ [])
    (hw : sys.stream.work = none) : addDataLoop f sys d = none := by
  obtain ⟨k, rfl⟩ : ∃ k, f = k + 1 := ⟨f - 1, by omega⟩
  simp [addDataLoop, hw, hd]

lemma addDataLoop_overflow_step (n : Nat) (sys : StreamSys) (d : List Char)
    (b : H2Bucket) (hw : sys.stream.work = some b) (hq : sys.queue.ok = true)
    (hfit : b.dataSize - b.data.length < d.length) :
    addDataLoop (n + 1) sys d =
      addDataLoop n
        { sys with
          stream := { sys.stream with work := none },
          queue := { sys.queue with
            items := sys.queue.items ++
              [QueueItem.data sys.stream.id
                (b.data ++ d.take (b.dataSize - b.data.length))] } }
        (d.drop (b.dataSize - b.data.length)) := by
  have hd0 : ¬ d.length = 0 := by omega
  have hmin : min (b.dataSize - b.data.length) d.length
      = b.dataSize - b.data.length := Nat.min_eq_left (by omega)
  simp [addDataLoop, hw, hd0, h2_bucket_append, hmin, hfit,
    h2_stream_push, h2_bucket_queue_append, hq]

lemma addDataLoop_overflow_crash (n : Nat) (sys : StreamSys) (d : List Char)
    (b : H2Bucket) (hw : sys.stream.work = some b) (hq : sys.queue.ok = true)
    (hfit : b.dataSize - b.data.length < d.length) (hn : 1 ≤ n) :
    addDataLoop (n + 1) sys d = none := by
  have hdrop : d.drop (b.dataSize - b.data.length) ≠ [] := by
    have h : 0 < (d.drop (b.dataSize - b.data.length)).length := by
      rw [List.length_drop]
      omega
    exact List.length_pos.mp h
  rw [addDataLoop_overflow_step n sys d b hw hq hfit]
  exact addDataLoop_none_of_work_none n _ _ hn hdrop (by rfl)

lemma add_data_overflow_crash (sys : StreamSys) (data : List Char)
    (hw : sys.stream.work = none) (hq : sys.queue.ok = true)
    (hbig : 16 * 1024 < data.length) :
    h2_stream_add_data sys data = none := by
  simp only [h2_stream_add_data, h2_stream_check_work, hw]
  exact addDataLoop_overflow_crash data.length _ data
    { data := [], dataSize := 16 * 1024 } (by rfl) hq (by simpa using hbig)
    (by omega)

/-- The smallest body chunk that overflows a fresh 16 KiB work Segment. -/
def bigData : List Char := List.replicate (16 * 1024 + 1) 'a'

/-- C2: a single add_data call one byte larger than the Segment capacity
fills the Segment, pushes it (clearing the work reference) and then hands
the absent Segment to the next append — the remainder is never written
into a freshly obtained Segment as claimed. -/
theorem add_data_rollover_null_segment :
    h2_stream_add_data initSys bigData = none :=
  add_data_overflow_crash initSys bigData (by rfl) (by rfl)
    (by simp only [bigData, List.length_replicate]; omega)

end H2
